import Mathlib

/-!
Shallow embedding of the analysis engine of the `hartea` HAR viewer
(packages `internal/har` and the TUI timeline renderer), together with
theorems settling the specification claims about it.

Modelling conventions:
* Go `float64` values are modelled as `ℚ` (the claims under scrutiny are
  about which entries contribute to an aggregate and how branches
  classify values, never about rounding of binary floating point).
* Go `time.Time` values are modelled as `ℚ`, measured in milliseconds
  from Go's zero time; `t1.Sub(t2).Seconds() * 1000` is then `t1 - t2`
  and the zero value `time.Time{}` is `0`.
* Go `int` / `int64` are modelled as `ℤ` (no arithmetic here overflows).
* Conversions `int(x)` and `time.Duration(x)` from `float64` truncate
  toward zero; `goTrunc` below models this.
* `fmt.Sprintf` decimal formatting (`%.1f`) is abstracted by `toString`
  on `ℚ`: the digits of a formatted number are never branched on by the
  program; the only strings the logic compares are the literals
  `"No change"` and `"Baseline"`, which are kept verbatim.
-/

namespace Hartea

/-- Truncation toward zero, the semantics of Go's `int(x)` and
`time.Duration(x)` conversions from `float64`. -/
def goTrunc (q : ℚ) : ℤ := if 0 ≤ q then ⌊q⌋ else ⌈q⌉

/-- Go `strings.Contains(s, sub)`: `sub` occurs as a substring of `s`.
`String.splitOn` yields more than one part exactly when the separator
occurs; `strings.Contains(s, "")` is `true` in Go. -/
def goContains (s sub : String) : Bool :=
  if sub = "" then true else (s.splitOn sub).length > 1

/-- Model of `Timings` from `internal/har/types.go`: per-phase durations in
milliseconds (Go `int` fields). -/
structure Timings where
  blocked : ℤ
  dns : ℤ
  connect : ℤ
  send : ℤ
  wait : ℤ
  receive : ℤ
  ssl : ℤ
deriving DecidableEq

/-- Model of `Content` from `internal/har/types.go` (fields the engine reads). -/
structure Content where
  size : ℤ
  mimeType : String
deriving DecidableEq

/-- Model of `Request` from `internal/har/types.go` (fields the engine reads). -/
structure Request where
  method : String
  url : String
deriving DecidableEq

/-- Model of `Response` from `internal/har/types.go` (fields the engine reads). -/
structure Response where
  status : ℤ
  content : Content
deriving DecidableEq

/-- Model of `CacheState` from `internal/har/types.go`. -/
structure CacheState where
  expires : ℚ
  lastAccess : ℚ
  eTag : String
  hitCount : ℤ
deriving DecidableEq

/-- Model of `Cache` from `internal/har/types.go`; the `*CacheState` pointers are
modelled as `Option` (`none` is Go `nil`). -/
structure Cache where
  beforeRequest : Option CacheState
  afterRequest : Option CacheState
deriving DecidableEq

/-- Model of `Entry` from `internal/har/types.go` (fields the engine reads).
`startedDateTime` is a `time.Time` (here: ℚ milliseconds), `time` the
total elapsed time in milliseconds (`float64`). -/
structure Entry where
  startedDateTime : ℚ
  time : ℚ
  request : Request
  response : Response
  cache : Cache
  timings : Timings
deriving DecidableEq

/-- Model of `PageTimings` from `internal/har/types.go`. -/
structure PageTimings where
  onContentLoad : ℤ
  onLoad : ℤ
deriving DecidableEq

/-- Model of `Page` from `internal/har/types.go`. -/
structure Page where
  startedDateTime : ℚ
  id : String
  title : String
  pageTimings : PageTimings
deriving DecidableEq

/-- Model of `Log` from `internal/har/types.go` (fields the engine reads). -/
structure Log where
  pages : List Page
  entries : List Entry
deriving DecidableEq

/-- Model of `HAR` from `internal/har/types.go`. -/
structure HAR where
  log : Log
deriving DecidableEq

/-- Model of `Metrics` from the analyzer file, Go field names kept. -/
structure Metrics where
  TotalRequests : ℤ := 0
  TotalTime : ℚ := 0
  TotalSize : ℤ := 0
  TTFB : ℚ := 0
  PageLoadTime : ℚ := 0
  DNSTime : ℚ := 0
  ConnectTime : ℚ := 0
  SSLTime : ℚ := 0
  FirstContentfulPaint : ℚ := 0
  LargestContentfulPaint : ℚ := 0
  CacheHitRatio : ℚ := 0
  ThirdPartyRequests : ℤ := 0
  ErrorRequests : ℤ := 0
deriving DecidableEq

/-- Go zero value `Metrics{}`. -/
def Metrics.zero : Metrics := {}

/-- The fixed third-party domain substring list of `Analyzer.isThirdParty`. -/
def thirdPartyDomains : List String :=
  ["googleapis.com", "googletagmanager.com", "facebook.com", "twitter.com",
   "analytics.google.com", "doubleclick.net", "amazon.com", "cdn.", "cdnjs."]

/-- Model of `Analyzer.isThirdParty`: the URL contains any of the fixed substrings. -/
def isThirdParty (url : String) : Bool :=
  thirdPartyDomains.any (fun domain => goContains url domain)

/-- Loop state of the single pass over entries in `CalculateMetrics`
(the local accumulator variables of the Go loop). -/
structure MetricsAcc where
  totalSize : ℤ
  totalTime : ℚ
  dnsTime : ℚ
  connectTime : ℚ
  sslTime : ℚ
  cacheHits : ℤ
  errorRequests : ℤ
  thirdPartyRequests : ℤ
  firstByte : ℚ

/-- Initial accumulator values of `CalculateMetrics` (`firstByte = -1`). -/
def metricsAccInit : MetricsAcc :=
  { totalSize := 0, totalTime := 0, dnsTime := 0, connectTime := 0,
    sslTime := 0, cacheHits := 0, errorRequests := 0,
    thirdPartyRequests := 0, firstByte := -1 }

/-- One iteration of the entry loop in `CalculateMetrics`. -/
def metricsStep (acc : MetricsAcc) (e : Entry) : MetricsAcc :=
  { totalTime := acc.totalTime + e.time
    totalSize := acc.totalSize + e.response.content.size
    errorRequests := acc.errorRequests + (if 400 ≤ e.response.status then 1 else 0)
    dnsTime := acc.dnsTime + (if 0 < e.timings.dns then (e.timings.dns : ℚ) else 0)
    connectTime := acc.connectTime + (if 0 < e.timings.connect then (e.timings.connect : ℚ) else 0)
    sslTime := acc.sslTime + (if 0 < e.timings.ssl then (e.timings.ssl : ℚ) else 0)
    firstByte :=
      if acc.firstByte = -1 ∨ (0 < e.timings.wait ∧ (e.timings.wait : ℚ) < acc.firstByte)
      then (e.timings.wait : ℚ) else acc.firstByte
    cacheHits := acc.cacheHits + (if e.cache.beforeRequest.isSome then 1 else 0)
    thirdPartyRequests := acc.thirdPartyRequests + (if isThirdParty e.request.url then 1 else 0) }

/-- Model of `Analyzer.calculateEstimatedPageLoadTime`: span between the earliest
start and the latest end time (`start + time.Duration(entry.Time)`, the
duration truncated to whole milliseconds by the `time.Duration`
conversion).  `maxEndTime` starts from Go's zero `time.Time` (0 here). -/
def calculateEstimatedPageLoadTime (har : HAR) : ℚ :=
  match har.log.entries with
  | [] => 0
  | e0 :: _ =>
    let minStartTime := har.log.entries.foldl
      (fun m e => if e.startedDateTime < m then e.startedDateTime else m)
      e0.startedDateTime
    let maxEndTime := har.log.entries.foldl
      (fun m e =>
        let endTime := e.startedDateTime + (goTrunc e.time : ℚ)
        if m < endTime then endTime else m)
      0
    maxEndTime - minStartTime

/-- Model of `Analyzer.CalculateMetrics`.  Empty input yields the zero-valued
`Metrics{}`; otherwise one pass over the entries accumulates the fields,
the page-load time prefers a positive page-level `OnLoad` and falls back
to the estimated span when still zero. -/
def CalculateMetrics (har : HAR) : Metrics :=
  match har.log.entries with
  | [] => Metrics.zero
  | _ :: _ =>
    let entries := har.log.entries
    let pageLoadFromTimings : ℚ :=
      match har.log.pages with
      | [] => 0
      | page :: _ =>
        if 0 < page.pageTimings.onLoad then (page.pageTimings.onLoad : ℚ) else 0
    let acc := entries.foldl metricsStep metricsAccInit
    let n : ℚ := (entries.length : ℚ)
    let m : Metrics :=
      { TotalRequests := (entries.length : ℤ)
        TotalTime := acc.totalTime
        TotalSize := acc.totalSize
        TTFB := acc.firstByte
        PageLoadTime := pageLoadFromTimings
        DNSTime := acc.dnsTime / n
        ConnectTime := acc.connectTime / n
        SSLTime := acc.sslTime / n
        CacheHitRatio := (acc.cacheHits : ℚ) / n * 100
        ThirdPartyRequests := acc.thirdPartyRequests
        ErrorRequests := acc.errorRequests }
    if m.PageLoadTime = 0 then
      { m with PageLoadTime := calculateEstimatedPageLoadTime har }
    else m

/-- Model of `TimelineEvent` from the analyzer file, Go field names kept. -/
structure TimelineEvent where
  Index : ℤ
  URL : String
  Method : String
  Status : ℤ
  StartTime : ℚ
  Duration : ℚ
  Size : ℤ
  ContentType : String
deriving DecidableEq

/-- The per-entry projection built by the loop in
`Analyzer.GenerateTimeline` before sorting: one `TimelineEvent` per
entry, carrying the loop index and the entry's fields verbatim. -/
def timelineProjections (har : HAR) : List TimelineEvent :=
  har.log.entries.enum.map (fun p =>
    { Index := (p.1 : ℤ)
      URL := p.2.request.url
      Method := p.2.request.method
      Status := p.2.response.status
      StartTime := p.2.startedDateTime
      Duration := p.2.time
      Size := p.2.response.content.size
      ContentType := p.2.response.content.mimeType })

/-- Model of the `sort.Slice(events, events[i].StartTime.Before(events[j].StartTime))`
call in `GenerateTimeline`.  Go's `sort.Slice` guarantees a permutation of
the input that is sorted with respect to the comparator (no later element
strictly precedes an earlier one, i.e. sorted under `≤` on start times);
it is documented as NOT stable, so the relative order of events with
equal start times is implementation-defined.  The model realizes this
contract with an insertion sort; only properties that are insensitive to
the order among equal start times are proved about it. -/
def sortSliceByStart (events : List TimelineEvent) : List TimelineEvent :=
  List.insertionSort (fun a b => a.StartTime ≤ b.StartTime) events

/-- Model of `Analyzer.GenerateTimeline`: project every entry, then sort by start
time. -/
def GenerateTimeline (har : HAR) : List TimelineEvent :=
  sortSliceByStart (timelineProjections har)

/-!  The waterfall layout of `TimelineRenderer` (TUI source file).  The
geometric part of `RenderWaterfall` / `renderRequestBar` is embedded;
the surrounding string rendering (labels, colors, legend) consumes the
computed positions but feeds nothing back into them. -/

/-- End time of an event as computed in `RenderWaterfall`:
`event.StartTime.Add(time.Duration(event.Duration) * time.Millisecond)`;
the `time.Duration` conversion truncates the duration to whole
milliseconds. -/
def eventEndTime (e : TimelineEvent) : ℚ := e.StartTime + (goTrunc e.Duration : ℚ)

/-- The `tr.startTime` bound of `RenderWaterfall`: minimum start time,
starting from `timeline[0].StartTime`. -/
def waterfallStartTime (timeline : List TimelineEvent) : ℚ :=
  match timeline with
  | [] => 0
  | t0 :: _ =>
    timeline.foldl (fun s e => if e.StartTime < s then e.StartTime else s) t0.StartTime

/-- The `tr.endTime` bound of `RenderWaterfall`: maximum event end time,
starting from `timeline[0].StartTime`. -/
def waterfallEndTime (timeline : List TimelineEvent) : ℚ :=
  match timeline with
  | [] => 0
  | t0 :: _ =>
    timeline.foldl (fun m e => if m < eventEndTime e then eventEndTime e else m) t0.StartTime

/-- The raw `totalDuration` of `RenderWaterfall` before the fallback:
`tr.endTime.Sub(tr.startTime).Seconds() * 1000`. -/
def totalDurationRaw (timeline : List TimelineEvent) : ℚ :=
  waterfallEndTime timeline - waterfallStartTime timeline

/-- The `totalDuration` actually used by `RenderWaterfall`: the raw
window length, replaced by `1000` (milliseconds) when it is not
positive (`if totalDuration <= 0 { totalDuration = 1000 }`). -/
def totalDuration (timeline : List TimelineEvent) : ℚ :=
  if totalDurationRaw timeline ≤ 0 then 1000 else totalDurationRaw timeline

/-- The usable chart width of `RenderWaterfall`: requested width minus
the 35-column label allowance, floored at 20. -/
def chartWidth (width : ℤ) : ℤ :=
  if width - 35 < 20 then 20 else width - 35

/-- Model of `tr.pixelScale = totalDuration / float64(chartWidth)`. -/
def pixelScale (timeline : List TimelineEvent) (width : ℤ) : ℚ :=
  totalDuration timeline / (chartWidth width : ℚ)

/-- The position computation of `renderRequestBar`: start pixel and bar
width after the minimum-width and clipping adjustments, for a given
chart width, window start time and pixel scale. -/
def renderRequestBarLayout (e : TimelineEvent) (cw : ℤ) (startT scale : ℚ) : ℤ × ℤ :=
  let requestStart := e.StartTime - startT
  let startPos := goTrunc (requestStart / scale)
  let duration0 := goTrunc (e.Duration / scale)
  let duration1 := if duration0 < 1 then 1 else duration0
  let startPos1 := if cw ≤ startPos then cw - 1 else startPos
  let duration2 := if cw < startPos1 + duration1 then cw - startPos1 else duration1
  (startPos1, duration2)

/-- The layout `RenderWaterfall` computes for one event of the
collection: `renderRequestBar` invoked with the renderer's chart width,
window start and pixel scale. -/
def waterfallLayout (timeline : List TimelineEvent) (width : ℤ) (e : TimelineEvent) : ℤ × ℤ :=
  renderRequestBarLayout e (chartWidth width) (waterfallStartTime timeline)
    (pixelScale timeline width)

/-!  The comparator (`internal/har/comparator.go`). -/

/-- Model of `MetricDifference` from `comparator.go`; `Values` holds formatted
display strings. -/
structure MetricDifference where
  Name : String
  Values : List String
  Changes : List String
  Improvements : List Bool
deriving DecidableEq

/-- Model of `ComparisonSummary` from `comparator.go`. -/
structure ComparisonSummary where
  BetterCount : ℤ
  WorseCount : ℤ
  UnchangedCount : ℤ
  TotalMetrics : ℤ
deriving DecidableEq

/-- Go zero value `ComparisonSummary{}`. -/
def ComparisonSummary.zero : ComparisonSummary :=
  { BetterCount := 0, WorseCount := 0, UnchangedCount := 0, TotalMetrics := 0 }

/-- Model of `Comparison` from `comparator.go`. -/
structure Comparison where
  Files : List String
  Metrics : List Metrics
  Differences : List MetricDifference
  Summary : ComparisonSummary
deriving DecidableEq

/-- Display formatting of a number (`fmt.Sprintf("%.1f", ·)` and
friends); the digits are never branched on, see the module docstring. -/
def fmtQ (q : ℚ) : String := toString q

/-- The extractor functions of `comparator.go`. -/
def extractPageLoadTime (m : Metrics) : ℚ := m.PageLoadTime

/-- Extractor for `TTFB`. -/
def extractTTFB (m : Metrics) : ℚ := m.TTFB

/-- Extractor for `DNSTime`. -/
def extractDNSTime (m : Metrics) : ℚ := m.DNSTime

/-- Extractor for `ConnectTime`. -/
def extractConnectTime (m : Metrics) : ℚ := m.ConnectTime

/-- Extractor for `SSLTime`. -/
def extractSSLTime (m : Metrics) : ℚ := m.SSLTime

/-- Extractor for `TotalRequests`. -/
def extractTotalRequests (m : Metrics) : ℤ := m.TotalRequests

/-- Extractor for `ErrorRequests`. -/
def extractErrorRequests (m : Metrics) : ℤ := m.ErrorRequests

/-- Extractor for `ThirdPartyRequests`. -/
def extractThirdPartyRequests (m : Metrics) : ℤ := m.ThirdPartyRequests

/-- Extractor for `CacheHitRatio`. -/
def extractCacheHitRatio (m : Metrics) : ℚ := m.CacheHitRatio

/-- Extractor for `TotalSize`. -/
def extractTotalSize (m : Metrics) : ℤ := m.TotalSize

/-- The fixed timing-metric name list of `isImprovementFloat`. -/
def timingMetrics : List String :=
  ["Total Load Time", "Time to First Byte", "Average DNS Time",
   "Average Connect Time", "Average SSL Time"]

/-- Model of `isImprovementFloat`: for timing metrics a negative delta is an
improvement, for the cache hit ratio a positive one; otherwise `false`. -/
def isImprovementFloat (metricName : String) (change : ℚ) : Bool :=
  if timingMetrics.contains metricName then decide (change < 0)
  else if metricName = "Cache Hit Ratio" then decide (0 < change)
  else false

/-- Model of `isImprovementInt`: fewer error or third-party requests is an
improvement; every other integer metric (in particular
"Total Requests") is never an improvement. -/
def isImprovementInt (metricName : String) (change : ℤ) : Bool :=
  if metricName = "Error Requests" ∨ metricName = "Third-party Requests"
  then decide (change < 0) else false

/-- Model of `formatSize` from `comparator.go` (decimal digits abstracted by
`fmtQ`). -/
def formatSize (size : ℤ) : String :=
  if size < 1024 then toString size ++ "B"
  else if size < 1024 * 1024 then fmtQ ((size : ℚ) / 1024) ++ "KB"
  else fmtQ ((size : ℚ) / (1024 * 1024)) ++ "MB"

/-- The body of the `i > 0` branch of `compareFloat` for one non-baseline
column: change string and improvement flag from the baseline and column
values.  `changePercent` is `0` when the baseline is `0`; a percentage of
magnitude below `0.1` is classified "No change". -/
def floatChangeCell (name : String) (base value : ℚ) : String × Bool :=
  let change := value - base
  let changePercent := if base ≠ 0 then change / base * 100 else 0
  if |changePercent| < 1 / 10 then ("No change", false)
  else if 0 < changePercent then
    ("+" ++ fmtQ changePercent ++ "%", isImprovementFloat name change)
  else
    (fmtQ changePercent ++ "%", isImprovementFloat name change)

/-- The body of the `i > 0` branch of `compareInt` for one non-baseline
column: classified "No change" exactly when the absolute delta is `0`. -/
def intChangeCell (name : String) (base value : ℤ) : String × Bool :=
  let change := value - base
  let changePercent : ℚ := if base ≠ 0 then ((change : ℚ) / (base : ℚ)) * 100 else 0
  if change = 0 then ("No change", false)
  else if 0 < change then
    ("+" ++ toString change ++ " (+" ++ fmtQ changePercent ++ "%)",
      isImprovementInt name change)
  else
    (toString change ++ " (" ++ fmtQ changePercent ++ "%)",
      isImprovementInt name change)

/-- The body of the `i > 0` branch of `compareSize` for one non-baseline
column; the improvement flag is `change < 0` (smaller size is better). -/
def sizeChangeCell (base value : ℤ) : String × Bool :=
  let change := value - base
  let changePercent : ℚ := if base ≠ 0 then ((change : ℚ) / (base : ℚ)) * 100 else 0
  if change = 0 then ("No change", false)
  else if 0 < change then
    ("+" ++ formatSize change ++ " (+" ++ fmtQ changePercent ++ "%)",
      decide (change < 0))
  else
    ("-" ++ formatSize (-change) ++ " (" ++ fmtQ changePercent ++ "%)",
      decide (change < 0))

/-- Model of `Comparator.compareFloat`.  The Go loop writes column `0` as
"Baseline"/`false` and every column `i > 0` from the baseline value
`extractor(c.metrics[0])` and the column's own value, so the slices are
the head cell followed by a map over the remaining metrics.  (The
baseline index `c.metrics[0]` is only reachable with at least two
metrics, `Compare` guards this.) -/
def compareFloat (name unit : String) (extractor : Metrics → ℚ)
    (metrics : List Metrics) : MetricDifference :=
  match metrics with
  | [] => { Name := name, Values := [], Changes := [], Improvements := [] }
  | m0 :: rest =>
    { Name := name
      Values := (m0 :: rest).map (fun m => fmtQ (extractor m) ++ unit)
      Changes := "Baseline" ::
        rest.map (fun m => (floatChangeCell name (extractor m0) (extractor m)).1)
      Improvements := false ::
        rest.map (fun m => (floatChangeCell name (extractor m0) (extractor m)).2) }

/-- Model of `Comparator.compareInt`, structured like `compareFloat`. -/
def compareInt (name unit : String) (extractor : Metrics → ℤ)
    (metrics : List Metrics) : MetricDifference :=
  match metrics with
  | [] => { Name := name, Values := [], Changes := [], Improvements := [] }
  | m0 :: rest =>
    { Name := name
      Values := (m0 :: rest).map (fun m =>
        if unit ≠ "" then toString (extractor m) ++ " " ++ unit
        else toString (extractor m))
      Changes := "Baseline" ::
        rest.map (fun m => (intChangeCell name (extractor m0) (extractor m)).1)
      Improvements := false ::
        rest.map (fun m => (intChangeCell name (extractor m0) (extractor m)).2) }

/-- Model of `Comparator.compareSize`, structured like `compareFloat`. -/
def compareSize (name : String) (extractor : Metrics → ℤ)
    (metrics : List Metrics) : MetricDifference :=
  match metrics with
  | [] => { Name := name, Values := [], Changes := [], Improvements := [] }
  | m0 :: rest =>
    { Name := name
      Values := (m0 :: rest).map (fun m => formatSize (extractor m))
      Changes := "Baseline" ::
        rest.map (fun m => (sizeChangeCell (extractor m0) (extractor m)).1)
      Improvements := false ::
        rest.map (fun m => (sizeChangeCell (extractor m0) (extractor m)).2) }

/-- Classification of one non-baseline cell by `calculateSummary`'s
branch chain: `Changes[i] == "No change"` tallies unchanged, else the
improvement flag decides better vs. worse. -/
inductive SummaryClass where
  | better
  | worse
  | unchanged
deriving DecidableEq

/-- The branch chain inside `calculateSummary`'s inner loop. -/
def summaryClass (change : String) (improvement : Bool) : SummaryClass :=
  if change = "No change" then .unchanged
  else if improvement then .better
  else .worse

/-- The cells `calculateSummary` iterates over: for every difference,
the change/improvement pairs of all non-baseline columns (`i ≥ 1`; the
two slices always have equal length by construction). -/
def summaryCells (differences : List MetricDifference) : List (String × Bool) :=
  (differences.map (fun d => (d.Changes.zip d.Improvements).drop 1)).flatten

/-- Model of `Comparator.calculateSummary`: tally the classification of every
non-baseline cell of every difference. -/
def calculateSummary (differences : List MetricDifference) : ComparisonSummary :=
  let cells := summaryCells differences
  let better : ℤ := (cells.countP (fun c => summaryClass c.1 c.2 = .better) : ℤ)
  let worse : ℤ := (cells.countP (fun c => summaryClass c.1 c.2 = .worse) : ℤ)
  let unchanged : ℤ := (cells.countP (fun c => summaryClass c.1 c.2 = .unchanged) : ℤ)
  { BetterCount := better, WorseCount := worse, UnchangedCount := unchanged,
    TotalMetrics := better + worse + unchanged }

/-- Model of `Comparator.Compare`: fewer than two metrics yields a `Comparison`
with only `Files`/`Metrics` set (Go zero values for the rest: no
differences, zero summary); otherwise the ten fixed metric comparisons
and their summary. -/
def Compare (files : List String) (metrics : List Metrics) : Comparison :=
  if metrics.length < 2 then
    { Files := files, Metrics := metrics, Differences := [],
      Summary := ComparisonSummary.zero }
  else
    let differences : List MetricDifference :=
      [compareFloat "Total Load Time" "ms" extractPageLoadTime metrics,
       compareFloat "Time to First Byte" "ms" extractTTFB metrics,
       compareFloat "Average DNS Time" "ms" extractDNSTime metrics,
       compareFloat "Average Connect Time" "ms" extractConnectTime metrics,
       compareFloat "Average SSL Time" "ms" extractSSLTime metrics,
       compareInt "Total Requests" "" extractTotalRequests metrics,
       compareInt "Error Requests" "" extractErrorRequests metrics,
       compareInt "Third-party Requests" "" extractThirdPartyRequests metrics,
       compareFloat "Cache Hit Ratio" "%" extractCacheHitRatio metrics,
       compareSize "Total Transfer Size" extractTotalSize metrics]
    { Files := files, Metrics := metrics, Differences := differences,
      Summary := calculateSummary differences }

/-- Written from the spec's words (not from the code), for comparison
against the code's TTFB: "the minimum positive wait duration across all
entries; if no entry has a positive wait, TTFB is a negative sentinel". -/
def specMinPositiveWait (entries : List Entry) : ℚ :=
  match (entries.map (fun e => (e.timings.wait : ℚ))).filter (fun w => 0 < w) with
  | [] => -1
  | w :: ws => ws.foldl min w

/-- The evolution of the `firstByte` variable alone in the
`CalculateMetrics` loop (used to reason about the combined fold). -/
def firstByteStep (fb : ℚ) (e : Entry) : ℚ :=
  if fb = -1 ∨ (0 < e.timings.wait ∧ (e.timings.wait : ℚ) < fb) then (e.timings.wait : ℚ) else fb

/-!  Concrete sample data used by witness and counterexample theorems. -/

/-- Builder for a concrete entry with the given start, elapsed time and
timing phases (remaining fields fixed innocuous values). -/
def sampleEntry (start tm : ℚ) (dns connect ssl wait : ℤ) : Entry :=
  { startedDateTime := start
    time := tm
    request := { method := "GET", url := "u" }
    response := { status := 200, content := { size := 10, mimeType := "t" } }
    cache := { beforeRequest := none, afterRequest := none }
    timings := { blocked := 0, dns := dns, connect := connect, send := 0,
                 wait := wait, receive := 0, ssl := ssl } }

/-- Builder for a HAR with no pages and the given entries. -/
def sampleHAR (entries : List Entry) : HAR := { log := { pages := [], entries := entries } }

/-- Builder for a concrete timeline event. -/
def sampleEvent (start dur : ℚ) : TimelineEvent :=
  { Index := 0, URL := "u", Method := "GET", Status := 200,
    StartTime := start, Duration := dur, Size := 10, ContentType := "t" }

/-- Two entries whose waits are `0` and `5`: the code's TTFB keeps the
first entry's wait `0` and never adopts the positive `5`. -/
def harWaitZeroFirst : HAR :=
  sampleHAR [sampleEntry 0 10 0 0 0 0, sampleEntry 0 10 0 0 0 5]

/-- One entry whose wait is `0`: no positive wait exists, yet the code's
TTFB is `0`, not a negative sentinel. -/
def harWaitAllZero : HAR := sampleHAR [sampleEntry 0 10 0 0 0 0]

/-- Entries with positive first wait, for the amended TTFB theorem. -/
def harWaitPosFirst : HAR :=
  sampleHAR [sampleEntry 0 10 0 0 0 7, sampleEntry 0 10 0 0 0 3,
             sampleEntry 0 10 0 0 0 0, sampleEntry 0 10 0 0 0 9]

/-- Entries with DNS/connect/SSL phases partly unmeasured, for the
phase-average witness. -/
def harPhases : HAR :=
  sampleHAR [sampleEntry 0 10 5 8 2 1, sampleEntry 0 10 (-1) 0 4 1,
             sampleEntry 0 10 0 (-1) (-1) 1]

/-- A single instantaneous event: raw window length `0`. -/
def timelineInstant : List TimelineEvent := [sampleEvent 0 0]

/-- Two events, one of them zero-duration, for the layout witness. -/
def timelineTwo : List TimelineEvent := [sampleEvent 0 50, sampleEvent 20 0]

/-- Concrete metrics with a nonzero TTFB, for the zero-baseline witness. -/
def metricsTTFB5 : Metrics := { TTFB := 5 }

/-- Concrete metrics with two error requests. -/
def metricsErr2 : Metrics := { ErrorRequests := 2 }

/-- Concrete metrics with three total requests. -/
def metricsReq3 : Metrics := { TotalRequests := 3 }

/-!  Theorems.  First the helper lemmas about the single-pass fold of
`CalculateMetrics`, then the claim theorems. -/

/-- The dnsTime component of the combined fold accumulates the positive
DNS phases. -/
lemma foldl_metricsStep_dnsTime (l : List Entry) (acc : MetricsAcc) :
    (l.foldl metricsStep acc).dnsTime
      = acc.dnsTime + (l.map (fun e => if 0 < e.timings.dns then (e.timings.dns : ℚ) else 0)).sum := by
  induction l generalizing acc with
  | nil => simp
  | cons e l ih =>
    simp only [List.foldl_cons, ih, metricsStep, List.map_cons, List.sum_cons]
    ring

/-- The connectTime component of the combined fold accumulates the
positive connect phases. -/
lemma foldl_metricsStep_connectTime (l : List Entry) (acc : MetricsAcc) :
    (l.foldl metricsStep acc).connectTime
      = acc.connectTime + (l.map (fun e => if 0 < e.timings.connect then (e.timings.connect : ℚ) else 0)).sum := by
  induction l generalizing acc with
  | nil => simp
  | cons e l ih =>
    simp only [List.foldl_cons, ih, metricsStep, List.map_cons, List.sum_cons]
    ring

/-- The sslTime component of the combined fold accumulates the positive
SSL phases. -/
lemma foldl_metricsStep_sslTime (l : List Entry) (acc : MetricsAcc) :
    (l.foldl metricsStep acc).sslTime
      = acc.sslTime + (l.map (fun e => if 0 < e.timings.ssl then (e.timings.ssl : ℚ) else 0)).sum := by
  induction l generalizing acc with
  | nil => simp
  | cons e l ih =>
    simp only [List.foldl_cons, ih, metricsStep, List.map_cons, List.sum_cons]
    ring

/-- The firstByte component of the combined fold evolves by
`firstByteStep` alone. -/
lemma foldl_metricsStep_firstByte (l : List Entry) (acc : MetricsAcc) :
    (l.foldl metricsStep acc).firstByte = l.foldl firstByteStep acc.firstByte := by
  induction l generalizing acc with
  | nil => rfl
  | cons e l ih =>
    simp only [List.foldl_cons, ih]
    rfl

/-- Unfolding of `CalculateMetrics` on a non-empty entry list: the
timing-related fields in terms of the combined fold. -/
lemma CalculateMetrics_timing_fields (har : HAR) (e0 : Entry) (rest : List Entry)
    (hE : har.log.entries = e0 :: rest) :
    (CalculateMetrics har).TTFB
        = (har.log.entries.foldl metricsStep metricsAccInit).firstByte ∧
    (CalculateMetrics har).DNSTime
        = (har.log.entries.foldl metricsStep metricsAccInit).dnsTime / (har.log.entries.length : ℚ) ∧
    (CalculateMetrics har).ConnectTime
        = (har.log.entries.foldl metricsStep metricsAccInit).connectTime / (har.log.entries.length : ℚ) ∧
    (CalculateMetrics har).SSLTime
        = (har.log.entries.foldl metricsStep metricsAccInit).sslTime / (har.log.entries.length : ℚ) := by
  unfold CalculateMetrics
  rw [hE]
  dsimp only
  split <;> exact ⟨rfl, rfl, rfl, rfl⟩

/-- With a strictly positive running value, the firstByte fold is the
running minimum over the positive waits. -/
lemma foldl_firstByteStep_pos (l : List Entry) (fb : ℚ) (hfb : 0 < fb) :
    l.foldl firstByteStep fb
      = ((l.map (fun e => (e.timings.wait : ℚ))).filter (fun w => 0 < w)).foldl min fb := by
  induction l generalizing fb with
  | nil => rfl
  | cons e l ih =>
    have hfb' : ¬ fb = -1 := by intro h; rw [h] at hfb; norm_num at hfb
    by_cases hw : 0 < e.timings.wait
    · have hwq : (0 : ℚ) < (e.timings.wait : ℚ) := by exact_mod_cast hw
      have hstep : firstByteStep fb e = min fb (e.timings.wait : ℚ) := by
        simp only [firstByteStep, hfb', false_or, hw, true_and, min_def]
        split_ifs <;> first | rfl | linarith
      simp only [List.foldl_cons, hstep, List.map_cons, List.filter_cons,
        decide_eq_true_eq, if_pos hwq]
      exact ih (min fb _) (lt_min hfb hwq)
    · have hstep : firstByteStep fb e = fb := by
        simp [firstByteStep, hfb', hw]
      have hwq : ¬ (0 : ℚ) < (e.timings.wait : ℚ) := by exact_mod_cast hw
      simp only [List.foldl_cons, hstep, List.map_cons, List.filter_cons,
        decide_eq_true_eq, if_neg hwq]
      exact ih fb hfb

/-- C1 (amended): the spec's description of TTFB as the minimum positive
wait holds only when the first entry's wait phase is positive; the code
seeds `firstByte` with the first entry's wait unconditionally, so under
this hypothesis `Metrics.TTFB` is the minimum positive wait across all
entries. -/
theorem CalculateMetrics_TTFB_eq_minPositiveWait
    (har : HAR) (e0 : Entry) (rest : List Entry)
    (hE : har.log.entries = e0 :: rest) (hw : 0 < e0.timings.wait) :
    (CalculateMetrics har).TTFB = specMinPositiveWait har.log.entries := by
  have hwq : (0 : ℚ) < (e0.timings.wait : ℚ) := by exact_mod_cast hw
  have h1 := (CalculateMetrics_timing_fields har e0 rest hE).1
  rw [h1, foldl_metricsStep_firstByte, hE]
  have hinit : metricsAccInit.firstByte = -1 := rfl
  rw [hinit]
  have hstep0 : firstByteStep (-1) e0 = (e0.timings.wait : ℚ) := by
    simp [firstByteStep]
  rw [List.foldl_cons, hstep0, foldl_firstByteStep_pos rest _ hwq]
  unfold specMinPositiveWait
  simp only [List.map_cons, List.filter_cons, decide_eq_true_eq, if_pos hwq]

/-- Witness for the amended C1 theorem at a concrete archive whose first
entry has a positive wait: the computed TTFB is the minimum positive
wait, 3. -/
theorem CalculateMetrics_TTFB_eq_minPositiveWait_witness :
    (CalculateMetrics harWaitPosFirst).TTFB = specMinPositiveWait harWaitPosFirst.log.entries ∧
    specMinPositiveWait harWaitPosFirst.log.entries = 3 :=
  ⟨CalculateMetrics_TTFB_eq_minPositiveWait harWaitPosFirst
      (sampleEntry 0 10 0 0 0 7)
      [sampleEntry 0 10 0 0 0 3, sampleEntry 0 10 0 0 0 0, sampleEntry 0 10 0 0 0 9]
      rfl (by decide),
   by decide⟩

/-- C1 (counterexample): with waits `[0, 5]` the code's TTFB is `0`, not
the minimum positive wait `5`; and with the single wait `[0]` (no
positive wait at all) the TTFB is `0`, not a negative sentinel. -/
theorem TTFB_not_min_positive_wait :
    (CalculateMetrics harWaitZeroFirst).TTFB = 0 ∧
    specMinPositiveWait harWaitZeroFirst.log.entries = 5 ∧
    (0 : ℚ) ≠ 5 ∧
    (CalculateMetrics harWaitAllZero).TTFB = 0 ∧
    ¬ (CalculateMetrics harWaitAllZero).TTFB < 0 := by
  refine ⟨by decide, by decide, by norm_num, by decide, by decide⟩

/-- C5: for a non-empty archive each of the DNS, connect and SSL
averages is the sum of that phase's durations over the entries where
the phase is positive, divided by the total number of entries. -/
theorem CalculateMetrics_phase_averages (har : HAR) (h : har.log.entries ≠ []) :
    (CalculateMetrics har).DNSTime
        = ((har.log.entries.map (fun e => if 0 < e.timings.dns then (e.timings.dns : ℚ) else 0)).sum)
            / (har.log.entries.length : ℚ) ∧
    (CalculateMetrics har).ConnectTime
        = ((har.log.entries.map (fun e => if 0 < e.timings.connect then (e.timings.connect : ℚ) else 0)).sum)
            / (har.log.entries.length : ℚ) ∧
    (CalculateMetrics har).SSLTime
        = ((har.log.entries.map (fun e => if 0 < e.timings.ssl then (e.timings.ssl : ℚ) else 0)).sum)
            / (har.log.entries.length : ℚ) := by
  obtain ⟨e0, rest, hE⟩ : ∃ e0 rest, har.log.entries = e0 :: rest := by
    cases hE : har.log.entries with
    | nil => exact absurd hE h
    | cons a b => exact ⟨a, b, rfl⟩
  obtain ⟨-, h2, h3, h4⟩ := CalculateMetrics_timing_fields har e0 rest hE
  refine ⟨?_, ?_, ?_⟩
  · rw [h2, foldl_metricsStep_dnsTime]
    have : metricsAccInit.dnsTime = 0 := rfl
    rw [this, zero_add]
  · rw [h3, foldl_metricsStep_connectTime]
    have : metricsAccInit.connectTime = 0 := rfl
    rw [this, zero_add]
  · rw [h4, foldl_metricsStep_sslTime]
    have : metricsAccInit.sslTime = 0 := rfl
    rw [this, zero_add]

/-- Witness for C5 on a concrete archive: three entries with DNS phases
`5, -1, 0` (one measured), connect phases `8, 0, -1` and SSL phases
`2, 4, -1`: the averages divide by 3, the total entry count. -/
theorem CalculateMetrics_phase_averages_witness :
    (CalculateMetrics harPhases).DNSTime = 5 / 3 ∧
    (CalculateMetrics harPhases).ConnectTime = 8 / 3 ∧
    (CalculateMetrics harPhases).SSLTime = 2 := by
  obtain ⟨h1, h2, h3⟩ := CalculateMetrics_phase_averages harPhases (by decide)
  refine ⟨?_, ?_, ?_⟩
  · rw [h1]; norm_num [harPhases, sampleHAR, sampleEntry]
  · rw [h2]; norm_num [harPhases, sampleHAR, sampleEntry]
  · rw [h3]; norm_num [harPhases, sampleHAR, sampleEntry]

/-- The usable chart width is at least 20 columns. -/
lemma chartWidth_ge (width : ℤ) : 20 ≤ chartWidth width := by
  unfold chartWidth
  split <;> omega

/-- The divisor substitution keeps the window length positive. -/
lemma totalDuration_pos (timeline : List TimelineEvent) : 0 < totalDuration timeline := by
  unfold totalDuration
  split
  · norm_num
  · linarith [not_le.mp (by assumption : ¬ totalDurationRaw timeline ≤ 0)]

/-- The pixel scale is positive: the time-to-pixel division never
divides by zero. -/
lemma pixelScale_pos (timeline : List TimelineEvent) (width : ℤ) :
    0 < pixelScale timeline width := by
  unfold pixelScale
  apply div_pos (totalDuration_pos timeline)
  have h := chartWidth_ge width
  exact_mod_cast (by omega : (0 : ℤ) < chartWidth width)

/-- The running-minimum fold of `RenderWaterfall` never exceeds its
initial value. -/
lemma foldl_minStart_le (l : List TimelineEvent) (a : ℚ) :
    l.foldl (fun s e => if e.StartTime < s then e.StartTime else s) a ≤ a := by
  induction l generalizing a with
  | nil => exact le_refl a
  | cons e l ih =>
    refine le_trans (ih _) ?_
    dsimp only
    split
    · linarith [(by assumption : e.StartTime < a)]
    · exact le_refl a

/-- The running-minimum fold of `RenderWaterfall` is bounded by every
member's start time. -/
lemma foldl_minStart_le_mem (l : List TimelineEvent) (a : ℚ) (e : TimelineEvent)
    (he : e ∈ l) :
    l.foldl (fun s e => if e.StartTime < s then e.StartTime else s) a ≤ e.StartTime := by
  induction l generalizing a with
  | nil => cases he
  | cons x l ih =>
    rcases List.mem_cons.mp he with rfl | he'
    · refine le_trans (foldl_minStart_le l _) ?_
      dsimp only
      split
      · exact le_refl _
      · linarith [not_lt.mp (by assumption : ¬ e.StartTime < a)]
    · exact ih _ he'

/-- The window start computed by `RenderWaterfall` is at most the start
time of every event of the collection. -/
lemma waterfallStartTime_le (timeline : List TimelineEvent) (e : TimelineEvent)
    (he : e ∈ timeline) : waterfallStartTime timeline ≤ e.StartTime := by
  cases timeline with
  | nil => cases he
  | cons t0 rest => exact foldl_minStart_le_mem _ _ _ he

/-- Truncation toward zero of a non-negative rational is non-negative. -/
lemma goTrunc_nonneg (q : ℚ) (h : 0 ≤ q) : 0 ≤ goTrunc q := by
  unfold goTrunc
  rw [if_pos h]
  exact Int.floor_nonneg.mpr h

/-- C4: for every event of a timeline collection and every requested
width, the waterfall layout yields a start pixel within the chart
(`0 ≤ start < chartWidth`), a bar width of at least one pixel, and
`start + width` never exceeding the chart width. -/
theorem waterfallLayout_within_bounds (timeline : List TimelineEvent) (width : ℤ)
    (e : TimelineEvent) (he : e ∈ timeline) :
    0 ≤ (waterfallLayout timeline width e).1 ∧
    (waterfallLayout timeline width e).1 < chartWidth width ∧
    1 ≤ (waterfallLayout timeline width e).2 ∧
    (waterfallLayout timeline width e).1 + (waterfallLayout timeline width e).2
      ≤ chartWidth width := by
  have hcw : 20 ≤ chartWidth width := chartWidth_ge width
  have hps : 0 < pixelScale timeline width := pixelScale_pos timeline width
  have hrs : 0 ≤ e.StartTime - waterfallStartTime timeline :=
    sub_nonneg.mpr (waterfallStartTime_le timeline e he)
  have hsp : 0 ≤ goTrunc ((e.StartTime - waterfallStartTime timeline) / pixelScale timeline width) :=
    goTrunc_nonneg _ (div_nonneg hrs hps.le)
  unfold waterfallLayout renderRequestBarLayout
  dsimp only
  split_ifs <;> refine ⟨?_, ?_, ?_, ?_⟩ <;> omega

/-- Witness for C4 at a concrete two-event collection with a
zero-duration event and width 80. -/
theorem waterfallLayout_within_bounds_witness :
    0 ≤ (waterfallLayout timelineTwo 80 (sampleEvent 20 0)).1 ∧
    (waterfallLayout timelineTwo 80 (sampleEvent 20 0)).1 < chartWidth 80 ∧
    1 ≤ (waterfallLayout timelineTwo 80 (sampleEvent 20 0)).2 ∧
    (waterfallLayout timelineTwo 80 (sampleEvent 20 0)).1
        + (waterfallLayout timelineTwo 80 (sampleEvent 20 0)).2 ≤ chartWidth 80 :=
  waterfallLayout_within_bounds timelineTwo 80 (sampleEvent 20 0) (by decide)

/-- C2 (amended): the window length used for the pixel scale is the raw
window length when the latter is positive and is replaced by 1000 ms
(one second, not a 1 ms floor) when the raw length is zero or negative,
so the scale divisor is always positive and no division by zero
occurs. -/
theorem totalDuration_fallback (timeline : List TimelineEvent) (width : ℤ) :
    0 < pixelScale timeline width ∧
    (totalDurationRaw timeline ≤ 0 → totalDuration timeline = 1000) ∧
    (0 < totalDurationRaw timeline → totalDuration timeline = totalDurationRaw timeline) := by
  refine ⟨pixelScale_pos timeline width, fun h => ?_, fun h => ?_⟩
  · unfold totalDuration
    rw [if_pos h]
  · unfold totalDuration
    rw [if_neg (not_le.mpr h)]

/-- Witness for the amended C2 theorem at a single instantaneous event:
the raw window is 0 and the substituted window is 1000 ms. -/
theorem totalDuration_fallback_witness :
    0 < pixelScale timelineInstant 80 ∧ totalDuration timelineInstant = 1000 :=
  ⟨(totalDuration_fallback timelineInstant 80).1,
   (totalDuration_fallback timelineInstant 80).2.1 (by
      norm_num [totalDurationRaw, waterfallEndTime, waterfallStartTime,
        timelineInstant, sampleEvent, eventEndTime, goTrunc])⟩

/-- C2 (counterexample): for a single instantaneous event the raw
window length is 0 and the window actually used is 1000 ms, not the
1 ms floor the claim states; accordingly the pixel scale at width 80 is
1000/45, not 1/45. -/
theorem totalDuration_not_floored_at_1ms :
    totalDurationRaw timelineInstant = 0 ∧
    totalDuration timelineInstant = 1000 ∧
    totalDuration timelineInstant ≠ 1 ∧
    pixelScale timelineInstant 80 = 1000 / 45 ∧
    pixelScale timelineInstant 80 ≠ 1 / 45 := by
  norm_num [pixelScale, chartWidth, totalDuration, totalDurationRaw, waterfallEndTime,
    waterfallStartTime, timelineInstant, sampleEvent, eventEndTime, goTrunc]

/-- C8: the timeline produced by `GenerateTimeline` is a permutation of
the per-entry projections (one event per entry, every field taken
verbatim from its entry), and in particular has one event per entry. -/
theorem GenerateTimeline_perm_projections (har : HAR) :
    (GenerateTimeline har).Perm (timelineProjections har) ∧
    (GenerateTimeline har).length = har.log.entries.length := by
  constructor
  · exact List.perm_insertionSort _ _
  · have h := (List.perm_insertionSort
      (fun a b : TimelineEvent => a.StartTime ≤ b.StartTime) (timelineProjections har)).length_eq
    unfold GenerateTimeline sortSliceByStart
    rw [h]
    simp [timelineProjections]

/-- C6: with fewer than two metrics, `Compare` returns no differences
and a summary whose `TotalMetrics` is zero, without error. -/
theorem Compare_fewer_than_two (files : List String) (metrics : List Metrics)
    (h : metrics.length < 2) :
    (Compare files metrics).Differences = [] ∧
    (Compare files metrics).Summary.TotalMetrics = 0 := by
  unfold Compare
  rw [if_pos h]
  exact ⟨rfl, rfl⟩

/-- Witness for C6 with exactly one Metrics record. -/
theorem Compare_fewer_than_two_witness :
    (Compare ["a"] [Metrics.zero]).Differences = [] ∧
    (Compare ["a"] [Metrics.zero]).Summary.TotalMetrics = 0 :=
  Compare_fewer_than_two ["a"] [Metrics.zero] (by norm_num)

/-- A string that starts with a character other than `N` is not the
literal "No change". -/
lemma ne_noChange_of_data_head (s : String) (c : Char)
    (hd : s.data.head? = some c) (hc : c ≠ 'N') : s ≠ "No change" := by
  intro h
  rw [h] at hd
  have hN : ("No change" : String).data.head? = some 'N' := rfl
  rw [hN] at hd
  exact hc (Option.some.inj hd.symm)

/-- The decimal rendering of a negative integer starts with a minus
sign. -/
lemma int_toString_neg (n : ℤ) (hn : n < 0) : ∃ s : String, toString n = "-" ++ s := by
  cases n with
  | ofNat k => exact absurd hn (Int.ofNat_nonneg k).not_lt
  | negSucc m => exact ⟨Nat.repr (m + 1), rfl⟩

/-- Appending on the right preserves the head character. -/
lemma data_head_append (s t : String) (c : Char) (h : s.data.head? = some c) :
    (s ++ t).data.head? = some c := by
  rw [String.data_append]
  cases hs : s.data with
  | nil => rw [hs] at h; cases h
  | cons x xs =>
    rw [hs] at h
    rw [List.cons_append]
    exact h

/-- An `intChangeCell` with a nonzero delta never reads "No change":
its change string starts with `+` or `-`. -/
lemma intChangeCell_fst_ne_noChange (name : String) (base value : ℤ)
    (h : value - base ≠ 0) :
    (intChangeCell name base value).1 ≠ "No change" := by
  unfold intChangeCell
  dsimp only
  rcases h.lt_or_lt with hneg | hpos
  · rw [if_neg h, if_neg (by omega : ¬ (0 : ℤ) < value - base)]
    obtain ⟨s, hs⟩ := int_toString_neg (value - base) hneg
    refine ne_noChange_of_data_head _ '-' ?_ (by decide)
    rw [hs]
    exact data_head_append _ _ _ (data_head_append _ _ _ (data_head_append _ _ _
      (data_head_append _ _ _ rfl)))
  · rw [if_neg h, if_pos hpos]
    refine ne_noChange_of_data_head _ '+' ?_ (by decide)
    exact data_head_append _ _ _ (data_head_append _ _ _ (data_head_append _ _ _
      (data_head_append _ _ _ rfl)))

/-- A `sizeChangeCell` with a nonzero delta never reads "No change". -/
lemma sizeChangeCell_fst_ne_noChange (base value : ℤ) (h : value - base ≠ 0) :
    (sizeChangeCell base value).1 ≠ "No change" := by
  unfold sizeChangeCell
  dsimp only
  rcases h.lt_or_lt with hneg | hpos
  · rw [if_neg h, if_neg (by omega : ¬ (0 : ℤ) < value - base)]
    refine ne_noChange_of_data_head _ '-' ?_ (by decide)
    exact data_head_append _ _ _ (data_head_append _ _ _ (data_head_append _ _ _
      (data_head_append _ _ _ rfl)))
  · rw [if_neg h, if_pos hpos]
    refine ne_noChange_of_data_head _ '+' ?_ (by decide)
    exact data_head_append _ _ _ (data_head_append _ _ _ (data_head_append _ _ _
      (data_head_append _ _ _ rfl)))

/-- A non-baseline cell classified worse forces a positive worse count
in the summary tally. -/
lemma worseCount_pos (differences : List MetricDifference) (d : MetricDifference)
    (hd : d ∈ differences) (c : String × Bool)
    (hc : c ∈ (d.Changes.zip d.Improvements).drop 1)
    (hcl : summaryClass c.1 c.2 = SummaryClass.worse) :
    1 ≤ (calculateSummary differences).WorseCount := by
  unfold calculateSummary
  dsimp only
  have hmem : c ∈ summaryCells differences := by
    unfold summaryCells
    exact List.mem_flatten.mpr ⟨_, List.mem_map_of_mem _ hd, hc⟩
  have hpos : 0 < (summaryCells differences).countP
      (fun c => summaryClass c.1 c.2 = SummaryClass.worse) :=
    List.countP_pos_iff.mpr ⟨c, hmem, by simp [hcl]⟩
  exact_mod_cast hpos

/-- A non-baseline cell classified unchanged forces a positive unchanged
count in the summary tally. -/
lemma unchangedCount_pos (differences : List MetricDifference) (d : MetricDifference)
    (hd : d ∈ differences) (c : String × Bool)
    (hc : c ∈ (d.Changes.zip d.Improvements).drop 1)
    (hcl : summaryClass c.1 c.2 = SummaryClass.unchanged) :
    1 ≤ (calculateSummary differences).UnchangedCount := by
  unfold calculateSummary
  dsimp only
  have hmem : c ∈ summaryCells differences := by
    unfold summaryCells
    exact List.mem_flatten.mpr ⟨_, List.mem_map_of_mem _ hd, hc⟩
  have hpos : 0 < (summaryCells differences).countP
      (fun c => summaryClass c.1 c.2 = SummaryClass.unchanged) :=
    List.countP_pos_iff.mpr ⟨c, hmem, by simp [hcl]⟩
  exact_mod_cast hpos

/-- The non-baseline cells of a `compareInt` difference are exactly the
`intChangeCell` values of the non-baseline metrics. -/
lemma compareInt_cells (name unit : String) (f : Metrics → ℤ) (m0 : Metrics)
    (rest : List Metrics) :
    ((compareInt name unit f (m0 :: rest)).Changes.zip
        (compareInt name unit f (m0 :: rest)).Improvements).drop 1
      = rest.map (fun m => intChangeCell name (f m0) (f m)) := by
  simp [compareInt, List.zip_map']

/-- The non-baseline cells of a `compareFloat` difference are exactly
the `floatChangeCell` values of the non-baseline metrics. -/
lemma compareFloat_cells (name unit : String) (f : Metrics → ℚ) (m0 : Metrics)
    (rest : List Metrics) :
    ((compareFloat name unit f (m0 :: rest)).Changes.zip
        (compareFloat name unit f (m0 :: rest)).Improvements).drop 1
      = rest.map (fun m => floatChangeCell name (f m0) (f m)) := by
  simp [compareFloat, List.zip_map']

/-- Unfolding of `Compare` when at least two metrics are present. -/
lemma Compare_ge_two (files : List String) (metrics : List Metrics)
    (h : ¬ metrics.length < 2) :
    (Compare files metrics).Differences =
      [compareFloat "Total Load Time" "ms" extractPageLoadTime metrics,
       compareFloat "Time to First Byte" "ms" extractTTFB metrics,
       compareFloat "Average DNS Time" "ms" extractDNSTime metrics,
       compareFloat "Average Connect Time" "ms" extractConnectTime metrics,
       compareFloat "Average SSL Time" "ms" extractSSLTime metrics,
       compareInt "Total Requests" "" extractTotalRequests metrics,
       compareInt "Error Requests" "" extractErrorRequests metrics,
       compareInt "Third-party Requests" "" extractThirdPartyRequests metrics,
       compareFloat "Cache Hit Ratio" "%" extractCacheHitRatio metrics,
       compareSize "Total Transfer Size" extractTotalSize metrics] ∧
    (Compare files metrics).Summary = calculateSummary (Compare files metrics).Differences := by
  unfold Compare
  rw [if_neg h]
  exact ⟨rfl, rfl⟩

/-- Model of `isImprovementInt` is constantly false on the "Total Requests"
metric. -/
lemma isImprovementInt_totalRequests (change : ℤ) :
    isImprovementInt "Total Requests" change = false := by
  unfold isImprovementInt
  rw [if_neg (by decide)]

/-- An `intChangeCell` with nonzero delta carries a change string other
than "No change" and, for "Total Requests", the improvement flag
`false`; it is classified worse. -/
lemma intChangeCell_totalRequests_worse (base value : ℤ) (h : value - base ≠ 0) :
    (intChangeCell "Total Requests" base value).1 ≠ "No change" ∧
    (intChangeCell "Total Requests" base value).2 = false ∧
    summaryClass (intChangeCell "Total Requests" base value).1
      (intChangeCell "Total Requests" base value).2 = SummaryClass.worse := by
  have hne : (intChangeCell "Total Requests" base value).1 ≠ "No change" :=
    intChangeCell_fst_ne_noChange _ base value h
  have himp : (intChangeCell "Total Requests" base value).2 = false := by
    unfold intChangeCell
    dsimp only
    split_ifs <;> simp [isImprovementInt_totalRequests]
  refine ⟨hne, himp, ?_⟩
  unfold summaryClass
  rw [if_neg hne, himp]
  rfl

/-- C10: whenever a non-baseline file's total request count differs from
the baseline's, the "Total Requests" cell has improvement flag `false`
and a change string other than "No change", is classified worse by the
summary rules, and the comparison's summary counts at least one worse
cell (never a better one for this metric). -/
theorem totalRequests_change_counted_worse (files : List String) (m0 m : Metrics)
    (rest : List Metrics) (hm : m ∈ rest)
    (hne : m.TotalRequests ≠ m0.TotalRequests) :
    (intChangeCell "Total Requests" m0.TotalRequests m.TotalRequests).2 = false ∧
    (intChangeCell "Total Requests" m0.TotalRequests m.TotalRequests).1 ≠ "No change" ∧
    summaryClass (intChangeCell "Total Requests" m0.TotalRequests m.TotalRequests).1
      (intChangeCell "Total Requests" m0.TotalRequests m.TotalRequests).2
      = SummaryClass.worse ∧
    1 ≤ (Compare files (m0 :: rest)).Summary.WorseCount := by
  have hd : m.TotalRequests - m0.TotalRequests ≠ 0 := sub_ne_zero.mpr hne
  obtain ⟨hs, hf, hcl⟩ := intChangeCell_totalRequests_worse m0.TotalRequests m.TotalRequests hd
  refine ⟨hf, hs, hcl, ?_⟩
  have hlen : ¬ ((m0 :: rest) : List Metrics).length < 2 := by
    cases rest with
    | nil => cases hm
    | cons a b => simp
  obtain ⟨hD, hS⟩ := Compare_ge_two files (m0 :: rest) hlen
  rw [hS, hD]
  refine worseCount_pos _ (compareInt "Total Requests" "" extractTotalRequests (m0 :: rest))
    ?_ (intChangeCell "Total Requests" (extractTotalRequests m0) (extractTotalRequests m)) ?_ ?_
  · exact List.mem_cons_of_mem _ (List.mem_cons_of_mem _ (List.mem_cons_of_mem _
      (List.mem_cons_of_mem _ (List.mem_cons_of_mem _ (List.mem_cons_self _ _)))))
  · rw [compareInt_cells]
    exact List.mem_map_of_mem _ hm
  · exact hcl

/-- Witness for C10: baseline with 0 total requests against a file with
3; the comparison tallies a worse cell. -/
theorem totalRequests_change_counted_worse_witness :
    (intChangeCell "Total Requests" Metrics.zero.TotalRequests metricsReq3.TotalRequests).2 = false ∧
    (intChangeCell "Total Requests" Metrics.zero.TotalRequests metricsReq3.TotalRequests).1 ≠ "No change" ∧
    summaryClass (intChangeCell "Total Requests" Metrics.zero.TotalRequests metricsReq3.TotalRequests).1
      (intChangeCell "Total Requests" Metrics.zero.TotalRequests metricsReq3.TotalRequests).2
      = SummaryClass.worse ∧
    1 ≤ (Compare ["a", "b"] [Metrics.zero, metricsReq3]).Summary.WorseCount :=
  totalRequests_change_counted_worse ["a", "b"] Metrics.zero metricsReq3 [metricsReq3]
    (List.mem_singleton.mpr rfl) (by decide)

/-- C7: with a baseline error count of 0 and a second file's error count
of 2, the "Error Requests" cell is the change string "+2 (+0%)" (the
percentage is 0 by the baseline-zero convention) with improvement flag
`false`; it is not "No change", it is classified worse, and the
comparison's summary counts at least one worse cell. -/
theorem errorRequests_zero_baseline_worse (files : List String) (m0 m1 : Metrics)
    (h0 : m0.ErrorRequests = 0) (h1 : m1.ErrorRequests = 2) :
    intChangeCell "Error Requests" m0.ErrorRequests m1.ErrorRequests = ("+2 (+0%)", false) ∧
    ("+2 (+0%)" : String) ≠ "No change" ∧
    summaryClass "+2 (+0%)" false = SummaryClass.worse ∧
    1 ≤ (Compare files [m0, m1]).Summary.WorseCount := by
  have hcell : intChangeCell "Error Requests" m0.ErrorRequests m1.ErrorRequests
      = ("+2 (+0%)", false) := by
    rw [h0, h1]; decide
  refine ⟨hcell, by decide, by decide, ?_⟩
  obtain ⟨hD, hS⟩ := Compare_ge_two files [m0, m1] (by simp)
  rw [hS, hD]
  refine worseCount_pos _ (compareInt "Error Requests" "" extractErrorRequests [m0, m1])
    ?_ (intChangeCell "Error Requests" (extractErrorRequests m0) (extractErrorRequests m1)) ?_ ?_
  · exact List.mem_cons_of_mem _ (List.mem_cons_of_mem _ (List.mem_cons_of_mem _
      (List.mem_cons_of_mem _ (List.mem_cons_of_mem _ (List.mem_cons_of_mem _
        (List.mem_cons_self _ _))))))
  · rw [compareInt_cells]
    simp
  · show summaryClass (intChangeCell "Error Requests" m0.ErrorRequests m1.ErrorRequests).1
      (intChangeCell "Error Requests" m0.ErrorRequests m1.ErrorRequests).2 = SummaryClass.worse
    rw [hcell]
    decide

/-- Witness for C7 at concrete metrics records with error counts 0 and
2. -/
theorem errorRequests_zero_baseline_worse_witness :
    intChangeCell "Error Requests" Metrics.zero.ErrorRequests metricsErr2.ErrorRequests
      = ("+2 (+0%)", false) ∧
    1 ≤ (Compare ["a", "b"] [Metrics.zero, metricsErr2]).Summary.WorseCount :=
  ⟨(errorRequests_zero_baseline_worse ["a", "b"] Metrics.zero metricsErr2 rfl rfl).1,
   (errorRequests_zero_baseline_worse ["a", "b"] Metrics.zero metricsErr2 rfl rfl).2.2.2⟩

/-- C9: in every floating-point metric comparison a zero baseline value
makes the cell "No change" with improvement flag `false` (whatever the
non-baseline value), the cell appears among the difference's
non-baseline cells and is tallied as unchanged by any summary containing
the difference — whereas the integer and size cells flag every nonzero
absolute delta as a change. -/
theorem float_zero_baseline_no_change (name unit : String) (f : Metrics → ℚ)
    (m0 m : Metrics) (rest : List Metrics) (hm : m ∈ rest) (h0 : f m0 = 0)
    (name2 : String) (bi vi : ℤ) (hvi : vi - bi ≠ 0) :
    floatChangeCell name (f m0) (f m) = ("No change", false) ∧
    ("No change", false) ∈ ((compareFloat name unit f (m0 :: rest)).Changes.zip
        (compareFloat name unit f (m0 :: rest)).Improvements).drop 1 ∧
    summaryClass "No change" false = SummaryClass.unchanged ∧
    (∀ differences : List MetricDifference,
      compareFloat name unit f (m0 :: rest) ∈ differences →
        1 ≤ (calculateSummary differences).UnchangedCount) ∧
    (intChangeCell name2 bi vi).1 ≠ "No change" ∧
    (sizeChangeCell bi vi).1 ≠ "No change" := by
  have hcell : floatChangeCell name (f m0) (f m) = ("No change", false) := by
    unfold floatChangeCell
    rw [h0]
    norm_num
  have hmem : ("No change", false) ∈ ((compareFloat name unit f (m0 :: rest)).Changes.zip
      (compareFloat name unit f (m0 :: rest)).Improvements).drop 1 := by
    rw [compareFloat_cells]
    exact List.mem_map.mpr ⟨m, hm, hcell⟩
  refine ⟨hcell, hmem, by decide, ?_, ?_, ?_⟩
  · intro differences hdiff
    exact unchangedCount_pos differences _ hdiff ("No change", false) hmem (by decide)
  · exact intChangeCell_fst_ne_noChange name2 bi vi hvi
  · exact sizeChangeCell_fst_ne_noChange bi vi hvi

/-- Witness for C9: baseline TTFB 0 against TTFB 5 — classified "No
change" and tallied unchanged, while an integer delta of 3 on the same
shape of input is flagged. -/
theorem float_zero_baseline_no_change_witness :
    floatChangeCell "Time to First Byte" (extractTTFB Metrics.zero) (extractTTFB metricsTTFB5)
      = ("No change", false) ∧
    1 ≤ (calculateSummary
        [compareFloat "Time to First Byte" "ms" extractTTFB [Metrics.zero, metricsTTFB5]]).UnchangedCount ∧
    (intChangeCell "Total Requests" 0 3).1 ≠ "No change" :=
  ⟨(float_zero_baseline_no_change "Time to First Byte" "ms" extractTTFB Metrics.zero
      metricsTTFB5 [metricsTTFB5] (List.mem_singleton.mpr rfl) rfl "Total Requests" 0 3
      (by decide)).1,
   (float_zero_baseline_no_change "Time to First Byte" "ms" extractTTFB Metrics.zero
      metricsTTFB5 [metricsTTFB5] (List.mem_singleton.mpr rfl) rfl "Total Requests" 0 3
      (by decide)).2.2.2.1 _ (List.mem_singleton.mpr rfl),
   (float_zero_baseline_no_change "Time to First Byte" "ms" extractTTFB Metrics.zero
      metricsTTFB5 [metricsTTFB5] (List.mem_singleton.mpr rfl) rfl "Total Requests" 0 3
      (by decide)).2.2.2.2.1⟩

end Hartea
